import Mathlib

/-!
Verification of the nilearn repository excerpt: the maintenance script
`maint_tools/files_in_pr.py` and the region-signal extractor (masker)
exercised by `nilearn/maskers/tests/test_multi_nifti_maps_masker.py`.

The masker implementation itself is not part of the excerpt (only its test
file is), so the extractor is modelled from the specification document;
`print_to_output` is embedded directly from `maint_tools/files_in_pr.py`.
-/

/- ## Part 1: `maint_tools/files_in_pr.py`, function `print_to_output` -/

/-- Lexicographic comparison of character lists by code point, the order
Python's `sorted` uses on strings. -/
def lexLe : List Char → List Char → Bool
  | [], _ => true
  | _ :: _, [] => false
  | a :: as, b :: bs => if a < b then true else if b < a then false else lexLe as bs

/-- Code-point lexicographic order on strings, as used by Python `sorted`. -/
def strLe (a b : String) : Bool := lexLe a.data b.data

theorem lexLe_total : ∀ x y : List Char, lexLe x y = true ∨ lexLe y x = true
  | [], _ => Or.inl rfl
  | _ :: _, [] => Or.inr rfl
  | a :: as, b :: bs => by
    rcases lt_trichotomy a b with h | h | h
    · left
      simp [lexLe, h]
    · subst h
      rcases lexLe_total as bs with ih | ih
      · left
        simp [lexLe, ih]
      · right
        simp [lexLe, ih]
    · right
      simp [lexLe, h]

theorem lexLe_trans :
    ∀ x y z : List Char,
      lexLe x y = true → lexLe y z = true → lexLe x z = true
  | [], _, _, _, _ => rfl
  | _ :: _, [], _, h1, _ => by simp [lexLe] at h1
  | _ :: _, _ :: _, [], _, h2 => by simp [lexLe] at h2
  | a :: as, b :: bs, c :: cs, h1, h2 => by
    rcases lt_trichotomy a b with hab | hab | hab
    · rcases lt_trichotomy b c with hbc | hbc | hbc
      · simp [lexLe, hab.trans hbc]
      · subst hbc
        simp [lexLe, hab]
      · rw [lexLe, if_neg (asymm hbc), if_pos hbc] at h2
        exact absurd h2 (by simp)
    · subst hab
      rcases lt_trichotomy a c with hac | hac | hac
      · simp [lexLe, hac]
      · subst hac
        rw [lexLe, if_neg (lt_irrefl a), if_neg (lt_irrefl a)] at h1 h2 ⊢
        exact lexLe_trans as bs cs h1 h2
      · rw [lexLe, if_neg (asymm hac), if_pos hac] at h2
        exact absurd h2 (by simp)
    · rw [lexLe, if_neg (asymm hab), if_pos hab] at h1
      exact absurd h1 (by simp)

theorem strLe_total (a b : String) : strLe a b = true ∨ strLe b a = true :=
  lexLe_total a.data b.data

theorem strLe_trans {a b c : String} (h1 : strLe a b = true)
    (h2 : strLe b c = true) : strLe a c = true :=
  lexLe_trans a.data b.data c.data h1 h2

/-- One row of the CSV written by `print_to_output` (columns `files`,
`nb_occurences`, `conflict_risk`, `is_new`, `precommit` of the pandas
DataFrame built in `print_to_output`). -/
structure PrRow where
  files : String
  nb_occurences : Nat
  conflict_risk : Bool
  is_new : Bool
  precommit : Bool
deriving DecidableEq, Repr

/-- Embedding of `print_to_output` from `maint_tools/files_in_pr.py`.

The Python function computes `unique_files = sorted(set(all_files))` and,
for each unique file, appends
`is_new = not (root_folder() / file).exists()`,
`precommit = re.match(exclude_files, file) is None`,
`nb_occurences = all_files.count(file)`,
`conflict_risk = precommit[-1] is False and is_new[-1] is False`,
then writes the DataFrame of these columns to CSV, one row per unique file.

The two environment-dependent predicates are abstracted as arguments:
`matchesExclude file` models `re.match(exclude_files, file) is not None` and
`existsInRepo file` models `(root_folder() / file).exists()`. -/
def print_to_output (all_files : List String)
    (matchesExclude : String → Bool) (existsInRepo : String → Bool) :
    List PrRow :=
  let unique_files :=
    List.insertionSort (fun a b => strLe a b = true) all_files.dedup
  unique_files.map (fun file =>
    let is_new : Bool := ! existsInRepo file
    let precommit : Bool := ! matchesExclude file
    { files := file
      nb_occurences := all_files.count file
      conflict_risk := (!precommit) && (!is_new)
      is_new := is_new
      precommit := precommit })

theorem print_to_output_files_map (all_files : List String)
    (me er : String → Bool) :
    (print_to_output all_files me er).map PrRow.files
      = List.insertionSort (fun a b => strLe a b = true) all_files.dedup := by
  simp [print_to_output, List.map_map]
  apply List.map_id''
  intro f
  rfl

/-- The CSV row list is deduplicated: its `files` column has no duplicates. -/
theorem print_to_output_files_nodup (all_files : List String)
    (me er : String → Bool) :
    ((print_to_output all_files me er).map PrRow.files).Nodup := by
  rw [print_to_output_files_map]
  exact ((List.perm_insertionSort _ _).nodup_iff).mpr all_files.nodup_dedup

/-- The `files` column is lexicographically sorted. -/
theorem print_to_output_files_sorted (all_files : List String)
    (me er : String → Bool) :
    ((print_to_output all_files me er).map PrRow.files).Sorted
      (fun a b => strLe a b = true) := by
  rw [print_to_output_files_map]
  haveI : IsTotal String (fun a b => strLe a b = true) := ⟨strLe_total⟩
  haveI : IsTrans String (fun a b => strLe a b = true) :=
    ⟨fun _ _ _ => strLe_trans⟩
  exact List.sorted_insertionSort (fun a b => strLe a b = true) all_files.dedup

/-- The `files` column holds exactly the distinct members of `all_files`. -/
theorem print_to_output_files_mem (all_files : List String)
    (me er : String → Bool) (f : String) :
    f ∈ (print_to_output all_files me er).map PrRow.files ↔ f ∈ all_files := by
  rw [print_to_output_files_map]
  rw [List.mem_insertionSort]
  exact List.mem_dedup

/-- Each row records the occurrence count of its file in `all_files` and
flags `conflict_risk` exactly when the file matches the exclude pattern and
exists under the repository root. -/
theorem print_to_output_row_fields (all_files : List String)
    (me er : String → Bool) (row : PrRow)
    (h : row ∈ print_to_output all_files me er) :
    row.nb_occurences = all_files.count row.files ∧
      row.conflict_risk = (me row.files && er row.files) := by
  simp only [print_to_output, List.mem_map] at h
  obtain ⟨f, _, hrow⟩ := h
  subst hrow
  simp

/-- C10: `print_to_output` writes exactly one row per distinct file name in
`all_files`, in lexicographically sorted order; each row's `nb_occurences`
is the number of occurrences of that file in `all_files`, and its
`conflict_risk` is true exactly when the file both matches the exclude-files
pattern and exists under the repository root. -/
theorem print_to_output_spec (all_files : List String)
    (me er : String → Bool) (row : PrRow)
    (h : row ∈ print_to_output all_files me er) :
    ((print_to_output all_files me er).map PrRow.files).Nodup ∧
    ((print_to_output all_files me er).map PrRow.files).Sorted
      (fun a b => strLe a b = true) ∧
    (∀ f : String,
      f ∈ (print_to_output all_files me er).map PrRow.files ↔
        f ∈ all_files) ∧
    row.nb_occurences = all_files.count row.files ∧
    row.conflict_risk = (me row.files && er row.files) :=
  ⟨print_to_output_files_nodup all_files me er,
    print_to_output_files_sorted all_files me er,
    fun f => print_to_output_files_mem all_files me er f,
    (print_to_output_row_fields all_files me er row h).1,
    (print_to_output_row_fields all_files me er row h).2⟩

/-- Witness for C10 on a concrete input: `all_files = ["b", "a", "b"]`,
exclude pattern matching exactly `"a"`, repo containing exactly `"a"`. -/
theorem print_to_output_spec_witness :
    (⟨"a", 1, true, false, false⟩ : PrRow) ∈
      print_to_output (["b", "a", "b"])
        (fun s => s == ("a" : String)) (fun s => s == ("a" : String)) ∧
    (((print_to_output (["b", "a", "b"])
        (fun s => s == ("a" : String))
        (fun s => s == ("a" : String))).map PrRow.files).Nodup ∧
      ((print_to_output (["b", "a", "b"])
        (fun s => s == ("a" : String))
        (fun s => s == ("a" : String))).map PrRow.files).Sorted
        (fun a b => strLe a b = true) ∧
      (∀ f : String,
        f ∈ (print_to_output (["b", "a", "b"])
          (fun s => s == ("a" : String))
          (fun s => s == ("a" : String))).map PrRow.files ↔
          f ∈ (["b", "a", "b"] : List String)) ∧
      (⟨"a", 1, true, false, false⟩ : PrRow).nb_occurences
        = (["b", "a", "b"] : List String).count
            (⟨"a", 1, true, false, false⟩ : PrRow).files ∧
      (⟨"a", 1, true, false, false⟩ : PrRow).conflict_risk
        = (((⟨"a", 1, true, false, false⟩ : PrRow).files
              == ("a" : String)) &&
           ((⟨"a", 1, true, false, false⟩ : PrRow).files
              == ("a" : String)))) :=
  ⟨by decide, print_to_output_spec (["b", "a", "b"])
    (fun s => s == ("a" : String)) (fun s => s == ("a" : String))
    (⟨"a", 1, true, false, false⟩ : PrRow) (by decide)⟩

/- ## Part 2: the RegionSignalExtractor

The masker implementation (`MultiNiftiMapsMasker` / `NiftiMapsMasker`) is
not part of the repository excerpt; only its test file is. All definitions
in this part are therefore modelled from the specification document
(sections 3, 4, 6 and 7), which reconstructs the extractor's contract. -/

/-- Modelled from the spec: a 4x4 affine matrix (homogeneous voxel-to-world
mapping), represented row-major; the spec only ever compares affines for
exact equality. -/
abbrev Affine := List (List ℚ)

/-- Modelled from the spec: the first three (spatial) dimensions of a grid. -/
abbrev Shape3 := Nat × Nat × Nat

/-- Modelled from the spec, section 3: a RegionMapSet is a 4D array
(x, y, z, region) of weights with an associated affine; the shape's first
three dimensions define the spatial grid. -/
structure RegionMapSet where
  shape : Shape3
  nRegions : Nat
  affine : Affine
  weight : Nat → Nat → Nat → Nat → ℚ

/-- Modelled from the spec: the raw mask image as supplied to the
constructor, before its dimensionality has been validated; `dims` is the
full shape, whose length is the rank of the array. -/
structure MaskImage where
  dims : List Nat
  affine : Affine
  data : Nat → Nat → Nat → Bool

/-- Modelled from the spec, section 3: a BinaryMask is a 3D boolean array
with its own affine. -/
structure BinaryMask where
  shape : Shape3
  affine : Affine
  data : Nat → Nat → Nat → Bool

/-- Modelled from the spec, section 3: an ImageSeries is a 4D array
(x, y, z, time) with an affine, one subject's time series. -/
structure ImageSeries where
  shape : Shape3
  time : Nat
  affine : Affine
  data : Nat → Nat → Nat → Nat → ℚ

/-- Modelled from the spec, section 3: a SignalMatrix is a 2D array
(time, region), a list of `time` rows each of length `region count`. -/
abbrev SignalMatrix := List (List ℚ)

/-- Modelled from the spec, section 7: the four error kinds. The
dimensionality error carries the expected and provided dimensionality. -/
inductive ExtractorError where
  | notFitted
  | dimensionality (expected provided : Nat)
  | geometryMismatch
  | configuration
deriving DecidableEq, Repr

/-- Modelled from the spec, sections 4.1 and 9: the closed enumeration of
recognized resampling-target policies. -/
inductive ResamplingTarget where
  | noResampling
  | toMask
  | toMaps
deriving DecidableEq, Repr

/-- Modelled from the spec, section 6: the external collaborators the core
depends on. `vol` is the geometric-resampling routine
`resample(source_array, source_affine, target_affine, target_shape)`
applied to one 3D volume; `smooth` applies a spatial smoothing kernel of a
given full-width-half-maximum to one 3D frame. -/
structure Collaborators where
  vol : (Nat → Nat → Nat → ℚ) → Affine → Affine → Shape3 →
    Nat → Nat → Nat → ℚ
  smooth : ℚ → (Nat → Nat → Nat → ℚ) → Nat → Nat → Nat → ℚ

/-- Modelled from the spec, section 3: the FittedGeometry is the resolved
(possibly resampled) RegionMapSet and BinaryMask, created during fit and
consumed by every subsequent transform / inverse_transform call. -/
structure FittedGeometry where
  maps : RegionMapSet
  mask : Option BinaryMask

/-- Modelled from the spec, sections 3 and 9: the extractor holds its
construction inputs and an explicit state machine
(`fitted = none` for Unfit, `fitted = some g` for Fitted). -/
structure Extractor where
  maps : RegionMapSet
  mask : Option MaskImage
  smoothingFwhm : Option ℚ
  target : ResamplingTarget
  fitted : Option FittedGeometry

/-- Modelled from the spec, sections 4.1 and 9: the resampling-target
constructor argument is a string (or absent, meaning no resampling); any
unrecognized value is a fatal configuration error. -/
def parseResamplingTarget :
    Option String → Except ExtractorError ResamplingTarget
  | Option.none => .ok .noResampling
  | Option.some s =>
    if s = ("mask" : String) then .ok .toMask
    else if s = ("maps" : String) then .ok .toMaps
    else .error .configuration

/-- Modelled from the spec, section 4.1: construction validates the
resampling-target policy, and requesting target "mask" with no mask
supplied is a configuration error; a new instance is always Unfit. -/
def Extractor.create (maps : RegionMapSet) (mask : Option MaskImage)
    (smoothingFwhm : Option ℚ) (resamplingTarget : Option String) :
    Except ExtractorError Extractor :=
  match parseResamplingTarget resamplingTarget with
  | .error er => .error er
  | .ok t =>
    match t, mask with
    | .toMask, Option.none => .error .configuration
    | _, _ => .ok ⟨maps, mask, smoothingFwhm, t, Option.none⟩

/-- The spatial shape of a mask image whose dimensionality has been
validated as 3. -/
def MaskImage.shape3 (m : MaskImage) : Shape3 :=
  (m.dims.getD 0 0, m.dims.getD 1 0, m.dims.getD 2 0)

/-- Modelled from the spec, sections 4.1 and 6: resampling a RegionMapSet
onto a target grid/affine applies the external resampling routine to each
region's 3D volume; the result carries the target affine and shape. -/
def resampleMaps (c : Collaborators) (maps : RegionMapSet)
    (tgtAffine : Affine) (tgtShape : Shape3) : RegionMapSet :=
  ⟨tgtShape, maps.nRegions, tgtAffine,
    fun x y z r =>
      c.vol (fun a b d => maps.weight a b d r) maps.affine tgtAffine
        tgtShape x y z⟩

/-- Modelled from the spec, sections 4.1 and 6: resampling a BinaryMask
onto a target grid/affine resamples its indicator volume and keeps the
voxels with nonzero resampled value; the result carries the target affine
and shape. -/
def resampleMask (c : Collaborators) (m : BinaryMask)
    (tgtAffine : Affine) (tgtShape : Shape3) : BinaryMask :=
  ⟨tgtShape, tgtAffine,
    fun x y z =>
      if c.vol (fun a b d => if m.data a b d then 1 else 0) m.affine
          tgtAffine tgtShape x y z = 0
      then false else true⟩

/-- Modelled from the spec, section 4.1 (`fit()`): validates the mask's
dimensionality is exactly 3 (dimensionality error naming expected vs.
provided otherwise); with target "mask" resamples the maps onto the mask's
grid (configuration error if the mask is absent); with target "maps"
resamples the mask onto the maps' grid; with no resampling requires maps
and mask to already share shape and affine exactly (geometry mismatch
otherwise); produces the FittedGeometry. -/
def Extractor.fit (c : Collaborators) (e : Extractor) :
    Except ExtractorError Extractor :=
  match e.mask with
  | Option.none =>
    match e.target with
    | .toMask => .error .configuration
    | _ => .ok { e with fitted := Option.some ⟨e.maps, Option.none⟩ }
  | Option.some m =>
    if m.dims.length = 3 then
      let mk : BinaryMask := ⟨m.shape3, m.affine, m.data⟩
      match e.target with
      | .noResampling =>
        if mk.shape = e.maps.shape ∧ mk.affine = e.maps.affine then
          .ok { e with fitted := Option.some ⟨e.maps, Option.some mk⟩ }
        else .error .geometryMismatch
      | .toMask =>
        let g : FittedGeometry :=
          ⟨resampleMaps c e.maps mk.affine mk.shape, Option.some mk⟩
        .ok { e with fitted := Option.some g }
      | .toMaps =>
        let g : FittedGeometry :=
          ⟨e.maps,
            Option.some (resampleMask c mk e.maps.affine e.maps.shape)⟩
        .ok { e with fitted := Option.some g }
    else .error (.dimensionality 3 m.dims.length)

/-- Sum of `f` over `0, ..., n - 1`. -/
def sumOver (n : Nat) (f : Nat → ℚ) : ℚ := ((List.range n).map f).sum

/-- A voxel participates in aggregation when it lies inside the resolved
binary mask (or unconditionally when no mask was supplied). -/
def maskAllows (g : FittedGeometry) (x y z : Nat) : Bool :=
  match g.mask with
  | Option.none => true
  | Option.some m => m.data x y z

/-- Modelled from the spec, section 4.1: the per-region signal at one time
point is a weighted combination of voxel intensities using the region's
per-voxel weight, masked by the BinaryMask (the spec leaves the exact
weighting formula open; the model uses the masked weighted sum). -/
def regionSignalAt (g : FittedGeometry) (frame : Nat → Nat → Nat → ℚ)
    (r : Nat) : ℚ :=
  sumOver g.maps.shape.1 fun x =>
    sumOver g.maps.shape.2.1 fun y =>
      sumOver g.maps.shape.2.2 fun z =>
        (if maskAllows g x y z then g.maps.weight x y z r else 0) *
          frame x y z

/-- Modelled from the spec, section 4.1: when a smoothing kernel width is
configured, each frame is smoothed before aggregation. -/
def smoothedFrame (c : Collaborators) (fwhm : Option ℚ) (img : ImageSeries)
    (t : Nat) : Nat → Nat → Nat → ℚ :=
  match fwhm with
  | Option.none => fun x y z => img.data x y z t
  | Option.some w => c.smooth w (fun x y z => img.data x y z t)

/-- Modelled from the spec, section 4.1: transforming one ImageSeries
validates its shape and affine against the FittedGeometry (geometry
mismatch otherwise, never a resampling) and produces the
(time, region)-shaped SignalMatrix. -/
def transformImage (c : Collaborators) (g : FittedGeometry)
    (fwhm : Option ℚ) (img : ImageSeries) :
    Except ExtractorError SignalMatrix :=
  if img.shape = g.maps.shape ∧ img.affine = g.maps.affine then
    .ok ((List.range img.time).map fun t =>
      (List.range g.maps.nRegions).map fun r =>
        regionSignalAt g (smoothedFrame c fwhm img t) r)
  else .error .geometryMismatch

/-- Modelled from the spec, section 4.1: batch mode processes an ordered
sequence of ImageSeries one-to-one and in order. -/
def transformList (c : Collaborators) (g : FittedGeometry)
    (fwhm : Option ℚ) :
    List ImageSeries → Except ExtractorError (List SignalMatrix)
  | [] => .ok []
  | img :: rest =>
    match transformImage c g fwhm img with
    | .error er => .error er
    | .ok s =>
      match transformList c g fwhm rest with
      | .error er => .error er
      | .ok ss => .ok (s :: ss)

/-- Modelled from the spec, section 4.1: `transform` accepts either a
single ImageSeries or an ordered sequence of them. -/
inductive ImagesInput where
  | single (img : ImageSeries)
  | batch (imgs : List ImageSeries)

/-- Modelled from the spec, section 4.1: the output of `transform`, a
single SignalMatrix or an ordered sequence of them. -/
inductive TransformOutput where
  | single (s : SignalMatrix)
  | batch (ss : List SignalMatrix)

/-- Modelled from the spec, section 4.1: `transform` of the multi-subject
extractor. Requires a prior fit (not-fitted error otherwise), accepts
single or batch input, and preserves batch ordering. -/
def Extractor.transform (c : Collaborators) (e : Extractor)
    (input : ImagesInput) : Except ExtractorError TransformOutput :=
  match e.fitted with
  | Option.none => .error .notFitted
  | Option.some g =>
    match input with
    | .single img =>
      match transformImage c g e.smoothingFwhm img with
      | .error er => .error er
      | .ok s => .ok (.single s)
    | .batch imgs =>
      match transformList c g e.smoothingFwhm imgs with
      | .error er => .error er
      | .ok ss => .ok (.batch ss)

/-- Modelled from the spec, sections 4.1 and 7: `transform` of the
single-subject-only extractor variant, which rejects list/sequence input
as a fatal dimensionality error (a list of 4D images is 5D where 4D is
expected). -/
def Extractor.transformSingleSubject (c : Collaborators) (e : Extractor)
    (input : ImagesInput) : Except ExtractorError SignalMatrix :=
  match e.fitted with
  | Option.none => .error .notFitted
  | Option.some g =>
    match input with
    | .batch _ => .error (.dimensionality 4 5)
    | .single img => transformImage c g e.smoothingFwhm img

/-- Modelled from the spec, section 4.1: `fit_transform` is `fit` followed
by `transform`. -/
def Extractor.fit_transform (c : Collaborators) (e : Extractor)
    (input : ImagesInput) : Except ExtractorError TransformOutput :=
  match e.fit c with
  | .error er => .error er
  | .ok e2 => e2.transform c input

/-- Modelled from the spec, section 4.1: `fit_transform` of the
single-subject-only variant. -/
def Extractor.fit_transformSingleSubject (c : Collaborators)
    (e : Extractor) (input : ImagesInput) :
    Except ExtractorError SignalMatrix :=
  match e.fit c with
  | .error er => .error er
  | .ok e2 => e2.transformSingleSubject c input

/-- Modelled from the spec, section 4.1: `inverse_transform` requires a
prior fit and maps a SignalMatrix back into a 4D voxel-space image with
the FittedGeometry's maps shape and affine and the signal's time length,
combining region signals with the per-voxel region weights. -/
def Extractor.inverse_transform (e : Extractor) (s : SignalMatrix) :
    Except ExtractorError ImageSeries :=
  match e.fitted with
  | Option.none => .error .notFitted
  | Option.some g =>
    .ok ⟨g.maps.shape, s.length, g.maps.affine,
      fun x y z t =>
        sumOver g.maps.nRegions fun r =>
          g.maps.weight x y z r * ((s.getD t []).getD r 0)⟩

/- ## Concrete fixtures used by witnesses and counterexamples -/

/-- A concrete collaborator for witnesses: resampling returns the source
volume evaluated at the target voxel and smoothing is the identity. -/
def trivialCollab : Collaborators :=
  ⟨fun d _ _ _ => d, fun _ d => d⟩

/-- The identity 4x4 affine. -/
def idAffine : Affine :=
  [[1, 0, 0, 0], [0, 1, 0, 0], [0, 0, 1, 0], [0, 0, 0, 1]]

/-- A diagonal 4x4 affine with spacing 2. -/
def diag2Affine : Affine :=
  [[2, 0, 0, 0], [0, 2, 0, 0], [0, 0, 2, 0], [0, 0, 0, 1]]

/-- A small concrete RegionMapSet: grid 3 x 1 x 1, two regions, region `r`
has weight 1 exactly at voxel `x = r`. -/
def demoMaps : RegionMapSet :=
  ⟨(3, 1, 1), 2, idAffine, fun x _ _ r => if x = r then 1 else 0⟩

/-- A concrete 3D mask image on the same grid keeping only voxel x = 0. -/
def demoMask : MaskImage :=
  ⟨[3, 1, 1], idAffine, fun x _ _ => x = 0⟩

/-- A concrete ImageSeries on the demo grid: value x + t at voxel x. -/
def demoImg : ImageSeries :=
  ⟨(3, 1, 1), 2, idAffine, fun x _ _ t => (x : ℚ) + t⟩

/- ## Helper lemmas -/

theorem create_fitted_none {maps : RegionMapSet} {mask : Option MaskImage}
    {sm : Option ℚ} {rt : Option String} {e : Extractor}
    (h : Extractor.create maps mask sm rt = .ok e) :
    e.fitted = Option.none := by
  unfold Extractor.create at h
  repeat' split at h
  all_goals
    first
      | (injection h with h
         subst h
         rfl)
      | (subst h
         rfl)
      | exact Except.noConfusion h

theorem fit_fitted_isSome {c : Collaborators} {e e2 : Extractor}
    (h : e.fit c = .ok e2) : ∃ g, e2.fitted = Option.some g := by
  unfold Extractor.fit at h
  repeat' split at h
  all_goals
    first
      | (injection h with h
         subst h
         exact ⟨_, rfl⟩)
      | (subst h
         exact ⟨_, rfl⟩)
      | exact Except.noConfusion h
      | (rename_i om m hme h3len tgt htgt
         by_cases hc : m.shape3 = e.maps.shape ∧ m.affine = e.maps.affine
         · rw [if_pos hc] at h
           injection h with h
           subst h
           exact ⟨_, rfl⟩
         · rw [if_neg hc] at h
           exact Except.noConfusion h)

/-- C2: for every extractor on which fit has not yet succeeded (that is,
any freshly constructed instance, whatever its constructor arguments, and
in particular one sharing the constructor arguments of a previously fitted
instance), every call to transform (multi- or single-subject variant) or
inverse_transform fails with the not-fitted error. -/
theorem transform_before_fit_fails (maps : RegionMapSet)
    (mask : Option MaskImage) (sm : Option ℚ) (rt : Option String)
    (e : Extractor) (c : Collaborators) (input : ImagesInput)
    (s : SignalMatrix) (h : Extractor.create maps mask sm rt = .ok e) :
    e.transform c input = .error .notFitted ∧
    e.transformSingleSubject c input = .error .notFitted ∧
    e.inverse_transform s = .error .notFitted := by
  have hf := create_fitted_none h
  refine ⟨?_, ?_, ?_⟩ <;>
    simp [Extractor.transform, Extractor.transformSingleSubject,
      Extractor.inverse_transform, hf]

/-- Witness for C2 at a concrete freshly constructed extractor. -/
theorem transform_before_fit_fails_witness :
    Extractor.create demoMaps (Option.some demoMask) Option.none Option.none
      = .ok ⟨demoMaps, Option.some demoMask, Option.none,
          .noResampling, Option.none⟩ ∧
    ((⟨demoMaps, Option.some demoMask, Option.none, .noResampling,
        Option.none⟩ : Extractor).transform trivialCollab
        (.single demoImg) = .error .notFitted ∧
      (⟨demoMaps, Option.some demoMask, Option.none, .noResampling,
        Option.none⟩ : Extractor).transformSingleSubject trivialCollab
        (.single demoImg) = .error .notFitted ∧
      (⟨demoMaps, Option.some demoMask, Option.none, .noResampling,
        Option.none⟩ : Extractor).inverse_transform [] =
          .error .notFitted) :=
  ⟨rfl, transform_before_fit_fails demoMaps (Option.some demoMask)
    Option.none Option.none _ trivialCollab (.single demoImg) [] rfl⟩

/-- Projection of a successful single-subject transform result. -/
def singleResult :
    Except ExtractorError TransformOutput → Option SignalMatrix
  | .ok (.single s) => Option.some s
  | _ => Option.none

/-- Projection of a successful batch transform result. -/
def batchResult :
    Except ExtractorError TransformOutput → Option (List SignalMatrix)
  | .ok (.batch ss) => Option.some ss
  | _ => Option.none

theorem transformImage_ok (c : Collaborators) (g : FittedGeometry)
    (fwhm : Option ℚ) (img : ImageSeries)
    (him : img.shape = g.maps.shape ∧ img.affine = g.maps.affine) :
    transformImage c g fwhm img
      = .ok ((List.range img.time).map fun t =>
          (List.range g.maps.nRegions).map fun r =>
            regionSignalAt g (smoothedFrame c fwhm img t) r) := by
  simp [transformImage, him.1, him.2]

theorem transformImage_mismatch (c : Collaborators) (g : FittedGeometry)
    (fwhm : Option ℚ) (img : ImageSeries)
    (hmm : ¬(img.shape = g.maps.shape ∧ img.affine = g.maps.affine)) :
    transformImage c g fwhm img = .error .geometryMismatch := by
  simp [transformImage, hmm]

theorem transformImage_error_kind {c : Collaborators} {g : FittedGeometry}
    {fwhm : Option ℚ} {img : ImageSeries} {er : ExtractorError}
    (h : transformImage c g fwhm img = .error er) :
    er = .geometryMismatch := by
  unfold transformImage at h
  split at h
  · exact Except.noConfusion h
  · injection h with h
    exact h.symm

theorem signal_shape (T R : Nat) (f : Nat → Nat → ℚ) :
    (((List.range T).map fun t => (List.range R).map fun r => f t r).map
      List.length) = List.replicate T R := by
  rw [List.map_map]
  have : (List.length ∘ fun t => (List.range R).map fun r => f t r)
      = fun _ => R := by
    funext t
    simp
  rw [this]
  have := List.map_const (List.range T) R
  simpa using this

theorem transformList_ok_shapes (c : Collaborators) (g : FittedGeometry)
    (fwhm : Option ℚ) (imgs : List ImageSeries)
    (hb : ∀ i ∈ imgs, i.shape = g.maps.shape ∧ i.affine = g.maps.affine) :
    ∃ ss, transformList c g fwhm imgs = .ok ss ∧
      ss.map (fun s => s.map List.length)
        = imgs.map (fun i => List.replicate i.time g.maps.nRegions) := by
  induction imgs with
  | nil => exact ⟨[], rfl, rfl⟩
  | cons i rest ih =>
    obtain ⟨ss, hss, hshape⟩ :=
      ih (fun j hj => hb j (List.mem_cons_of_mem _ hj))
    have hi := hb i (List.mem_cons_self _ _)
    refine ⟨((List.range i.time).map fun t =>
      (List.range g.maps.nRegions).map fun r =>
        regionSignalAt g (smoothedFrame c fwhm i t) r) :: ss, ?_, ?_⟩
    · simp [transformList, transformImage_ok c g fwhm i hi, hss]
    · simp only [List.map_cons, hshape, List.cons.injEq, and_true]
      exact signal_shape i.time g.maps.nRegions _

theorem fit_nRegions {c : Collaborators} {e e2 : Extractor}
    {g : FittedGeometry} (hf : e.fit c = .ok e2)
    (hg : e2.fitted = Option.some g) :
    g.maps.nRegions = e.maps.nRegions := by
  unfold Extractor.fit at hf
  repeat' split at hf
  all_goals
    first
      | exact Except.noConfusion hf
      | (injection hf with hf
         subst hf
         injection hg with hg
         subst hg
         rfl)
      | (rename_i om m hme h3len tgt htgt
         by_cases hc : m.shape3 = e.maps.shape ∧ m.affine = e.maps.affine
         · rw [if_pos hc] at hf
           injection hf with hf
           subst hf
           injection hg with hg
           subst hg
           rfl
         · rw [if_neg hc] at hf
           exact Except.noConfusion hf)

/-- An unfit demo extractor over `demoMaps` (no mask, no smoothing, no
resampling). -/
def demoExt : Extractor :=
  ⟨demoMaps, Option.none, Option.none, .noResampling, Option.none⟩

/-- The fitted geometry `demoExt.fit` resolves. -/
def demoGeom : FittedGeometry := ⟨demoMaps, Option.none⟩

/-- The demo extractor after fit. -/
def demoExtFitted : Extractor := { demoExt with fitted := Option.some demoGeom }

/-- C1: for every fitted extractor over a RegionMapSet with R regions,
transform of a single (geometry-compatible) ImageSeries of time length T
yields a SignalMatrix of shape (T, R), and transform / fit_transform of an
ordered batch of N ImageSeries yields an ordered sequence of N
SignalMatrix outputs, the i-th of shape (T_i, R). Shapes are stated via
the row-length profile: a matrix has shape (T, R) exactly when mapping
`List.length` over its rows gives `List.replicate T R`. -/
theorem transform_output_shapes (c : Collaborators) (e e2 : Extractor)
    (hf : e.fit c = .ok e2) (g : FittedGeometry)
    (hg : e2.fitted = Option.some g) (img : ImageSeries)
    (him : img.shape = g.maps.shape ∧ img.affine = g.maps.affine)
    (imgs : List ImageSeries)
    (hb : ∀ i ∈ imgs, i.shape = g.maps.shape ∧ i.affine = g.maps.affine) :
    (singleResult (e2.transform c (.single img))).map
        (fun s => s.map List.length)
      = Option.some (List.replicate img.time e.maps.nRegions) ∧
    (batchResult (e.fit_transform c (.batch imgs))).map
        (fun ss => ss.map fun s => s.map List.length)
      = Option.some (imgs.map fun i =>
          List.replicate i.time e.maps.nRegions) := by
  have hR := fit_nRegions hf hg
  constructor
  · simp only [Extractor.transform, hg,
      transformImage_ok c g e2.smoothingFwhm img him, singleResult,
      Option.map_some']
    rw [signal_shape img.time g.maps.nRegions _, hR]
  · obtain ⟨ss, hss, hsh⟩ := transformList_ok_shapes c g e2.smoothingFwhm imgs hb
    simp only [Extractor.fit_transform, hf, Extractor.transform, hg, hss,
      batchResult, Option.map_some']
    rw [hsh, hR]

/-- Witness for C1: the fitted demo extractor, a single compatible image
and a batch of two. -/
theorem transform_output_shapes_witness :
    (singleResult (demoExtFitted.transform trivialCollab
        (.single demoImg))).map (fun s => s.map List.length)
      = Option.some (List.replicate demoImg.time demoExt.maps.nRegions) ∧
    (batchResult (demoExt.fit_transform trivialCollab
        (.batch [demoImg, demoImg]))).map
        (fun ss => ss.map fun s => s.map List.length)
      = Option.some ([demoImg, demoImg].map fun i =>
          List.replicate i.time demoExt.maps.nRegions) :=
  transform_output_shapes trivialCollab demoExt demoExtFitted rfl demoGeom
    rfl demoImg ⟨rfl, rfl⟩ [demoImg, demoImg] (by decide)

theorem smoothedFrame_smooth_eq
    (v1 v2 : (Nat → Nat → Nat → ℚ) → Affine → Affine → Shape3 →
      Nat → Nat → Nat → ℚ)
    (sm : ℚ → (Nat → Nat → Nat → ℚ) → Nat → Nat → Nat → ℚ)
    (fwhm : Option ℚ) (img : ImageSeries) (t : Nat) :
    smoothedFrame ⟨v1, sm⟩ fwhm img t = smoothedFrame ⟨v2, sm⟩ fwhm img t := by
  cases fwhm <;> rfl

theorem transformImage_vol_irrelevant
    (v1 v2 : (Nat → Nat → Nat → ℚ) → Affine → Affine → Shape3 →
      Nat → Nat → Nat → ℚ)
    (sm : ℚ → (Nat → Nat → Nat → ℚ) → Nat → Nat → Nat → ℚ)
    (g : FittedGeometry) (fwhm : Option ℚ) (img : ImageSeries) :
    transformImage ⟨v1, sm⟩ g fwhm img = transformImage ⟨v2, sm⟩ g fwhm img := by
  unfold transformImage
  rw [funext fun t => smoothedFrame_smooth_eq v1 v2 sm fwhm img t]

theorem transformList_vol_irrelevant
    (v1 v2 : (Nat → Nat → Nat → ℚ) → Affine → Affine → Shape3 →
      Nat → Nat → Nat → ℚ)
    (sm : ℚ → (Nat → Nat → Nat → ℚ) → Nat → Nat → Nat → ℚ)
    (g : FittedGeometry) (fwhm : Option ℚ) (imgs : List ImageSeries) :
    transformList ⟨v1, sm⟩ g fwhm imgs = transformList ⟨v2, sm⟩ g fwhm imgs := by
  induction imgs with
  | nil => rfl
  | cons i rest ih =>
    simp only [transformList, transformImage_vol_irrelevant v1 v2 sm g fwhm i,
      ih]

theorem transformList_mismatch (c : Collaborators) (g : FittedGeometry)
    (fwhm : Option ℚ) (imgs : List ImageSeries)
    (hex : ∃ i ∈ imgs, ¬(i.shape = g.maps.shape ∧ i.affine = g.maps.affine)) :
    transformList c g fwhm imgs = .error .geometryMismatch := by
  induction imgs with
  | nil => simp at hex
  | cons i rest ih =>
    by_cases hi : i.shape = g.maps.shape ∧ i.affine = g.maps.affine
    · have hrest : ∃ j ∈ rest,
          ¬(j.shape = g.maps.shape ∧ j.affine = g.maps.affine) := by
        rcases hex with ⟨j, hj, hjm⟩
        rcases List.mem_cons.mp hj with h | h
        · subst h
          exact absurd hi hjm
        · exact ⟨j, h, hjm⟩
      simp [transformList, transformImage_ok c g fwhm i hi, ih hrest]
    · simp [transformList, transformImage_mismatch c g fwhm i hi]

/-- C3: after fit, any shape or affine mismatch between the transform-time
input and the fit-time geometry is a hard validation error (single and
batch input, geometry mismatch), and no implicit re-resampling is ever
performed after fit: the result of transform (either variant) does not
depend on the external resampling routine, and inverse_transform takes no
resampling collaborator at all. -/
theorem transform_mismatch_strict (e : Extractor) (g : FittedGeometry)
    (hg : e.fitted = Option.some g) (c : Collaborators) (img : ImageSeries)
    (hmm : ¬(img.shape = g.maps.shape ∧ img.affine = g.maps.affine))
    (imgs : List ImageSeries)
    (hex : ∃ i ∈ imgs, ¬(i.shape = g.maps.shape ∧ i.affine = g.maps.affine))
    (v1 v2 : (Nat → Nat → Nat → ℚ) → Affine → Affine → Shape3 →
      Nat → Nat → Nat → ℚ)
    (sm : ℚ → (Nat → Nat → Nat → ℚ) → Nat → Nat → Nat → ℚ)
    (input : ImagesInput) :
    e.transform c (.single img) = .error .geometryMismatch ∧
    e.transform c (.batch imgs) = .error .geometryMismatch ∧
    e.transform ⟨v1, sm⟩ input = e.transform ⟨v2, sm⟩ input ∧
    e.transformSingleSubject ⟨v1, sm⟩ input
      = e.transformSingleSubject ⟨v2, sm⟩ input := by
  refine ⟨?_, ?_, ?_, ?_⟩
  · simp [Extractor.transform, hg, transformImage_mismatch c g
      e.smoothingFwhm img hmm]
  · simp [Extractor.transform, hg, transformList_mismatch c g
      e.smoothingFwhm imgs hex]
  · cases input with
    | single i =>
      simp [Extractor.transform, hg,
        transformImage_vol_irrelevant v1 v2 sm g e.smoothingFwhm i]
    | batch l =>
      simp [Extractor.transform, hg,
        transformList_vol_irrelevant v1 v2 sm g e.smoothingFwhm l]
  · cases input with
    | single i =>
      simp [Extractor.transformSingleSubject, hg,
        transformImage_vol_irrelevant v1 v2 sm g e.smoothingFwhm i]
    | batch l => rfl

/-- A demo ImageSeries whose shape disagrees with the demo geometry. -/
def demoImgBad : ImageSeries :=
  ⟨(2, 1, 1), 2, idAffine, fun _ _ _ t => (t : ℚ)⟩

/-- Witness for C3 at the fitted demo extractor with a wrongly-shaped
input image. -/
theorem transform_mismatch_strict_witness :
    demoExtFitted.transform trivialCollab (.single demoImgBad)
      = .error .geometryMismatch ∧
    demoExtFitted.transform trivialCollab (.batch [demoImg, demoImgBad])
      = .error .geometryMismatch ∧
    demoExtFitted.transform ⟨fun d _ _ _ => d, fun _ d => d⟩
        (.single demoImg)
      = demoExtFitted.transform ⟨fun _ _ _ _ _ _ _ => 0, fun _ d => d⟩
        (.single demoImg) ∧
    demoExtFitted.transformSingleSubject ⟨fun d _ _ _ => d, fun _ d => d⟩
        (.single demoImg)
      = demoExtFitted.transformSingleSubject
        ⟨fun _ _ _ _ _ _ _ => 0, fun _ d => d⟩ (.single demoImg) :=
  transform_mismatch_strict demoExtFitted demoGeom rfl trivialCollab
    demoImgBad (by decide) [demoImg, demoImgBad]
    ⟨demoImgBad, by simp, by decide⟩
    (fun d _ _ _ => d) (fun _ _ _ _ _ _ _ => 0) (fun _ d => d)
    (.single demoImg)

/-- A concrete 4D mask image (rank 4). -/
def demoMask4D : MaskImage :=
  ⟨[2, 2, 2, 2], idAffine, fun _ _ _ => true⟩

/-- C4: a mask of rank 4 makes fit fail with the dimensionality error
naming expected dimensionality 3 and provided dimensionality 4, regardless
of the extractor's other parameters; and the single-subject-only extractor
variant, given list/sequence input after a successful fit (as in
fit_transform), fails with the dimensionality error naming expected
dimensionality 4 and provided dimensionality 5. -/
theorem dimensionality_errors (c : Collaborators) (e : Extractor)
    (m : MaskImage) (hm : e.mask = Option.some m)
    (h4 : m.dims.length = 4) (e2 e3 : Extractor)
    (hfit : e2.fit c = .ok e3) (imgs : List ImageSeries) :
    e.fit c = .error (.dimensionality 3 4) ∧
    e2.fit_transformSingleSubject c (.batch imgs)
      = .error (.dimensionality 4 5) := by
  constructor
  · simp [Extractor.fit, hm, h4]
  · obtain ⟨g, hg⟩ := fit_fitted_isSome hfit
    simp [Extractor.fit_transformSingleSubject, hfit,
      Extractor.transformSingleSubject, hg]

/-- Witness for C4: a concrete extractor with a 4D mask, and the demo
extractor given batch input through the single-subject variant. -/
theorem dimensionality_errors_witness :
    (⟨demoMaps, Option.some demoMask4D, Option.none, .noResampling,
        Option.none⟩ : Extractor).fit trivialCollab
      = .error (.dimensionality 3 4) ∧
    demoExt.fit_transformSingleSubject trivialCollab
        (.batch [demoImg, demoImg])
      = .error (.dimensionality 4 5) :=
  dimensionality_errors trivialCollab
    (⟨demoMaps, Option.some demoMask4D, Option.none, .noResampling,
      Option.none⟩ : Extractor) demoMask4D rfl rfl demoExt demoExtFitted
    rfl [demoImg, demoImg]

/-- C7: with resampling target none and a 3D mask whose shape or affine
disagrees with the maps, fit fails with the geometry-mismatch error. -/
theorem no_resampling_mismatch_fit_fails (c : Collaborators) (e : Extractor)
    (m : MaskImage) (hm : e.mask = Option.some m)
    (h3 : m.dims.length = 3) (ht : e.target = .noResampling)
    (hmm : ¬(m.shape3 = e.maps.shape ∧ m.affine = e.maps.affine)) :
    e.fit c = .error .geometryMismatch := by
  simp [Extractor.fit, hm, h3, ht, hmm]

/-- A 3D mask image whose shape disagrees with `demoMaps`. -/
def demoMaskBad : MaskImage :=
  ⟨[2, 1, 1], idAffine, fun _ _ _ => true⟩

/-- Witness for C7: the demo maps with a wrongly-shaped mask under target
none. -/
theorem no_resampling_mismatch_fit_fails_witness :
    (⟨demoMaps, Option.some demoMaskBad, Option.none, .noResampling,
        Option.none⟩ : Extractor).fit trivialCollab
      = .error .geometryMismatch :=
  no_resampling_mismatch_fit_fails trivialCollab
    (⟨demoMaps, Option.some demoMaskBad, Option.none, .noResampling,
      Option.none⟩ : Extractor) demoMaskBad rfl rfl rfl (by decide)

/-- C8: requesting resampling target "mask" with no mask supplied fails at
construction with the configuration error, and any unrecognized
resampling-target string fails at construction with the configuration
error. -/
theorem resampling_target_config_errors (maps : RegionMapSet)
    (mask : Option MaskImage) (sm sm2 : Option ℚ) (s : String)
    (hs1 : ¬ s = ("mask" : String)) (hs2 : ¬ s = ("maps" : String)) :
    Extractor.create maps Option.none sm (Option.some ("mask" : String))
      = .error .configuration ∧
    Extractor.create maps mask sm2 (Option.some s)
      = .error .configuration := by
  constructor
  · rfl
  · simp [Extractor.create, parseResamplingTarget, hs1, hs2]

/-- Witness for C8 with the unrecognized string "invalid". -/
theorem resampling_target_config_errors_witness :
    Extractor.create demoMaps Option.none Option.none
        (Option.some ("mask" : String)) = .error .configuration ∧
    Extractor.create demoMaps (Option.some demoMask) Option.none
        (Option.some ("invalid" : String)) = .error .configuration :=
  resampling_target_config_errors demoMaps (Option.some demoMask)
    Option.none Option.none ("invalid" : String) (by decide) (by decide)

/-- An extractor moved to the Fitted state with resolved geometry `g`. -/
def withFitted (e : Extractor) (g : FittedGeometry) : Extractor :=
  { e with fitted := Option.some g }

theorem fit_toMask_eq (c : Collaborators) (e : Extractor) (m : MaskImage)
    (hm : e.mask = Option.some m) (h3 : m.dims.length = 3)
    (ht : e.target = .toMask) :
    e.fit c = .ok (withFitted e
      ⟨resampleMaps c e.maps m.affine m.shape3,
        Option.some ⟨m.shape3, m.affine, m.data⟩⟩) := by
  simp [Extractor.fit, hm, h3, ht, withFitted]

theorem fit_toMaps_eq (c : Collaborators) (e : Extractor) (m : MaskImage)
    (hm : e.mask = Option.some m) (h3 : m.dims.length = 3)
    (ht : e.target = .toMaps) :
    e.fit c = .ok (withFitted e
      ⟨e.maps, Option.some (resampleMask c ⟨m.shape3, m.affine, m.data⟩
        e.maps.affine e.maps.shape)⟩) := by
  simp [Extractor.fit, hm, h3, ht, withFitted]

/-- C5: after fit with resampling target "mask", the fitted mask keeps the
original mask's affine and shape while the fitted maps are resampled to
carry the mask's affine and shape (on the first three dimensions);
symmetrically, after fit with target "maps" the fitted maps are unchanged
and the fitted mask is resampled to carry the maps' affine and shape. -/
theorem resampling_target_geometry (c : Collaborators)
    (eA : Extractor) (mA : MaskImage) (hmA : eA.mask = Option.some mA)
    (h3A : mA.dims.length = 3) (htA : eA.target = .toMask)
    (eA2 : Extractor) (gA : FittedGeometry)
    (hfA : eA.fit c = .ok eA2) (hgA : eA2.fitted = Option.some gA)
    (eB : Extractor) (mB : MaskImage) (hmB : eB.mask = Option.some mB)
    (h3B : mB.dims.length = 3) (htB : eB.target = .toMaps)
    (eB2 : Extractor) (gB : FittedGeometry)
    (hfB : eB.fit c = .ok eB2) (hgB : eB2.fitted = Option.some gB) :
    (gA.mask.map BinaryMask.affine = Option.some mA.affine ∧
     gA.mask.map BinaryMask.shape = Option.some mA.shape3 ∧
     gA.maps.affine = mA.affine ∧
     gA.maps.shape = mA.shape3) ∧
    (gB.maps = eB.maps ∧
     gB.mask.map BinaryMask.affine = Option.some eB.maps.affine ∧
     gB.mask.map BinaryMask.shape = Option.some eB.maps.shape) := by
  rw [fit_toMask_eq c eA mA hmA h3A htA] at hfA
  injection hfA with hfA
  subst hfA
  injection hgA with hgA
  subst hgA
  rw [fit_toMaps_eq c eB mB hmB h3B htB] at hfB
  injection hfB with hfB
  subst hfB
  injection hgB with hgB
  subst hgB
  exact ⟨⟨rfl, rfl, rfl, rfl⟩, ⟨rfl, rfl, rfl⟩⟩

/-- A concrete 2 x 2 x 2 mask with spacing-2 affine, disagreeing with the
demo maps' geometry. -/
def demoMask2 : MaskImage := ⟨[2, 2, 2], diag2Affine, fun _ _ _ => true⟩

/-- Demo extractor with resampling target "mask". -/
def demoExtToMask : Extractor :=
  ⟨demoMaps, Option.some demoMask2, Option.none, .toMask, Option.none⟩

/-- Geometry resolved by fitting `demoExtToMask`. -/
def demoGeomToMask : FittedGeometry :=
  ⟨resampleMaps trivialCollab demoMaps diag2Affine (2, 2, 2),
    Option.some ⟨(2, 2, 2), diag2Affine, demoMask2.data⟩⟩

/-- The extractor `demoExtToMask` after fit. -/
def demoExtToMaskFitted : Extractor :=
  { demoExtToMask with fitted := Option.some demoGeomToMask }

/-- Demo extractor with resampling target "maps". -/
def demoExtToMaps : Extractor :=
  ⟨demoMaps, Option.some demoMask2, Option.none, .toMaps, Option.none⟩

/-- Geometry resolved by fitting `demoExtToMaps`. -/
def demoGeomToMaps : FittedGeometry :=
  ⟨demoMaps, Option.some (resampleMask trivialCollab
    ⟨(2, 2, 2), diag2Affine, demoMask2.data⟩ demoMaps.affine
    demoMaps.shape)⟩

/-- The extractor `demoExtToMaps` after fit. -/
def demoExtToMapsFitted : Extractor :=
  { demoExtToMaps with fitted := Option.some demoGeomToMaps }

/-- Witness for C5 at the two concrete fitted extractors. -/
theorem resampling_target_geometry_witness :
    (demoGeomToMask.mask.map BinaryMask.affine
        = Option.some demoMask2.affine ∧
     demoGeomToMask.mask.map BinaryMask.shape
        = Option.some demoMask2.shape3 ∧
     demoGeomToMask.maps.affine = demoMask2.affine ∧
     demoGeomToMask.maps.shape = demoMask2.shape3) ∧
    (demoGeomToMaps.maps = demoExtToMaps.maps ∧
     demoGeomToMaps.mask.map BinaryMask.affine
        = Option.some demoExtToMaps.maps.affine ∧
     demoGeomToMaps.mask.map BinaryMask.shape
        = Option.some demoExtToMaps.maps.shape) :=
  resampling_target_geometry trivialCollab
    demoExtToMask demoMask2 rfl rfl rfl demoExtToMaskFitted demoGeomToMask
    rfl rfl
    demoExtToMaps demoMask2 rfl rfl rfl demoExtToMapsFitted demoGeomToMaps
    rfl rfl

theorem transformImage_ok_length {c : Collaborators} {g : FittedGeometry}
    {fwhm : Option ℚ} {img : ImageSeries} {s : SignalMatrix}
    (h : transformImage c g fwhm img = .ok s) : s.length = img.time := by
  unfold transformImage at h
  split at h
  · injection h with h
    subst h
    simp
  · exact Except.noConfusion h

/-- C6: for every fitted extractor and every ImageSeries accepted by
transform, inverse_transform of the transformed signals yields a 4D image
whose affine is the fit-time geometry's affine, whose spatial shape is the
fit-time maps' first three dimensions, and whose time length is the input
image's time length. -/
theorem inverse_transform_roundtrip (e : Extractor) (g : FittedGeometry)
    (hg : e.fitted = Option.some g) (c : Collaborators) (img : ImageSeries)
    (s : SignalMatrix)
    (hs : e.transform c (.single img) = .ok (.single s)) :
    (e.inverse_transform s).toOption.map ImageSeries.affine
      = Option.some g.maps.affine ∧
    (e.inverse_transform s).toOption.map ImageSeries.shape
      = Option.some g.maps.shape ∧
    (e.inverse_transform s).toOption.map ImageSeries.time
      = Option.some img.time := by
  have hlen : s.length = img.time := by
    simp only [Extractor.transform, hg] at hs
    rcases hti : transformImage c g e.smoothingFwhm img with er | s2 <;>
      rw [hti] at hs
    · exact Except.noConfusion hs
    · injection hs with hs
      injection hs with hs
      subst hs
      exact transformImage_ok_length hti
  refine ⟨?_, ?_, ?_⟩ <;>
    simp [Extractor.inverse_transform, hg, Except.toOption, hlen]

/-- The signal matrix `demoExtFitted` extracts from `demoImg`. -/
def demoSignals : SignalMatrix :=
  (List.range demoImg.time).map fun t =>
    (List.range demoGeom.maps.nRegions).map fun r =>
      regionSignalAt demoGeom (smoothedFrame trivialCollab Option.none
        demoImg t) r

/-- Witness for C6 at the fitted demo extractor. -/
theorem inverse_transform_roundtrip_witness :
    (demoExtFitted.inverse_transform demoSignals).toOption.map
        ImageSeries.affine = Option.some demoGeom.maps.affine ∧
    (demoExtFitted.inverse_transform demoSignals).toOption.map
        ImageSeries.shape = Option.some demoGeom.maps.shape ∧
    (demoExtFitted.inverse_transform demoSignals).toOption.map
        ImageSeries.time = Option.some demoImg.time :=
  inverse_transform_roundtrip demoExtFitted demoGeom rfl trivialCollab
    demoImg demoSignals rfl

/-- Modelled from the spec: mean of a list of values. -/
def listMean (xs : List ℚ) : ℚ := xs.sum / xs.length

/-- Modelled from the spec: population variance of a list of values. -/
def listVariance (xs : List ℚ) : ℚ :=
  ((xs.map fun x => (x - listMean xs) ^ 2).sum) / xs.length

/-- Column `r` of a SignalMatrix: region r's signal across time. -/
def column (s : SignalMatrix) (r : Nat) : List ℚ :=
  s.map fun row => row.getD r 0

/-- Number of regions among `0 .. R - 1` whose signal across time has zero
variance. -/
def zeroVarianceCount (s : SignalMatrix) (R : Nat) : Nat :=
  ((List.range R).filter fun j =>
    decide (listVariance (column s j) = 0)).length

/-- The mask clips out some region weight: some in-bounds voxel carries a
nonzero weight for some region but lies outside the mask. -/
def clipsSomeWeights (g : FittedGeometry) : Prop :=
  ∃ x y z r, x < g.maps.shape.1 ∧ y < g.maps.shape.2.1 ∧
    z < g.maps.shape.2.2 ∧ r < g.maps.nRegions ∧
    g.maps.weight x y z r ≠ 0 ∧ maskAllows g x y z = false

/-- Some region weight survives the mask: some in-bounds voxel carries a
nonzero weight for some region and lies inside the mask. -/
def keepsSomeWeights (g : FittedGeometry) : Prop :=
  ∃ x y z r, x < g.maps.shape.1 ∧ y < g.maps.shape.2.1 ∧
    z < g.maps.shape.2.2 ∧ r < g.maps.nRegions ∧
    g.maps.weight x y z r ≠ 0 ∧ maskAllows g x y z = true

/-- The image data is non-constant over time at some in-bounds voxel. -/
def nonConstantOverTime (img : ImageSeries) : Prop :=
  ∃ x y z t1 t2, x < img.shape.1 ∧ y < img.shape.2.1 ∧
    z < img.shape.2.2 ∧ t1 < img.time ∧ t2 < img.time ∧
    img.data x y z t1 ≠ img.data x y z t2

/-- Demo extractor with the clipping mask and no resampling. -/
def demoExtMasked : Extractor :=
  ⟨demoMaps, Option.some demoMask, Option.none, .noResampling, Option.none⟩

/-- Geometry resolved by fitting `demoExtMasked`: the mask keeps only
voxel x = 0, so region 1 (whose weight sits at x = 1) is fully clipped. -/
def demoGeomMasked : FittedGeometry :=
  ⟨demoMaps, Option.some ⟨(3, 1, 1), idAffine, demoMask.data⟩⟩

/-- The extractor `demoExtMasked` after fit. -/
def demoExtMaskedFitted : Extractor := withFitted demoExtMasked demoGeomMasked

/-- An ImageSeries that is non-constant over time only at voxel x = 2,
which carries no region weight; every region signal is constant. -/
def cexImg : ImageSeries :=
  ⟨(3, 1, 1), 2, idAffine, fun x _ _ t => if x = 2 then (t : ℚ) else 5⟩

/-- Counterexample to C9 as stated: a fitted extractor whose mask clips
out some but not all region weights, and an input whose data is
non-constant over time (at a voxel carrying no weight), for which every
one of the R regions has zero variance across time, so the count of
zero-variance regions is not less than R. -/
theorem clipped_variance_counterexample :
    demoExtMasked.fit trivialCollab = .ok demoExtMaskedFitted ∧
    demoExtMaskedFitted.fitted = Option.some demoGeomMasked ∧
    clipsSomeWeights demoGeomMasked ∧
    keepsSomeWeights demoGeomMasked ∧
    nonConstantOverTime cexImg ∧
    demoExtMaskedFitted.transform trivialCollab (.single cexImg)
      = .ok (.single [[5, 0], [5, 0]]) ∧
    ¬ (zeroVarianceCount [[5, 0], [5, 0]] demoGeomMasked.maps.nRegions
        < demoGeomMasked.maps.nRegions) := by
  refine ⟨rfl, rfl,
    ⟨1, 0, 0, 1, by decide, by decide, by decide, by decide,
      by norm_num [demoGeomMasked, demoMaps], rfl⟩,
    ⟨0, 0, 0, 0, by decide, by decide, by decide, by decide,
      by norm_num [demoGeomMasked, demoMaps], rfl⟩,
    ⟨2, 0, 0, 0, 1, by decide, by decide, by decide, by decide,
      by decide, by norm_num [cexImg]⟩, ?_, ?_⟩
  · simp only [Extractor.transform, demoExtMaskedFitted, withFitted,
      demoExtMasked]
    rw [transformImage_ok trivialCollab demoGeomMasked Option.none cexImg
      ⟨rfl, rfl⟩]
    norm_num [cexImg, demoGeomMasked, demoMaps, demoMask, regionSignalAt,
      sumOver, maskAllows, smoothedFrame, trivialCollab, List.range_succ]
  · norm_num [zeroVarianceCount, listVariance, listMean, column,
      demoGeomMasked, demoMaps, List.range_succ]

/-- C9 (amended): for every fitted extractor whose binary mask clips out
some but not all region weights, and every input ImageSeries, non-constant
over time, for which some region's extracted signal has nonzero variance
across time, the SignalMatrix produced by transform has fewer than R
regions with zero variance across time. -/
theorem clipped_variance_amended (e : Extractor) (g : FittedGeometry)
    (hg : e.fitted = Option.some g) (c : Collaborators) (img : ImageSeries)
    (s : SignalMatrix)
    (hs : e.transform c (.single img) = .ok (.single s))
    (hclip : clipsSomeWeights g) (hkeep : keepsSomeWeights g)
    (hnc : nonConstantOverTime img) (r : Nat) (hr : r < g.maps.nRegions)
    (hvar : listVariance (column s r) ≠ 0) :
    zeroVarianceCount s g.maps.nRegions < g.maps.nRegions := by
  unfold zeroVarianceCount
  have h : ((List.range g.maps.nRegions).filter fun j =>
        decide (listVariance (column s j) = 0)).length
      < (List.range g.maps.nRegions).length :=
    List.length_filter_lt_length_iff_exists.mpr
      ⟨r, List.mem_range.mpr hr, by simp [hvar]⟩
  simpa using h

/-- An ImageSeries varying over time at the surviving in-mask voxel x = 0,
so region 0's extracted signal varies. -/
def ampImg : ImageSeries :=
  ⟨(3, 1, 1), 2, idAffine, fun x _ _ t => if x = 0 then (t : ℚ) else 0⟩

/-- Witness for the amended C9 at the fitted masked demo extractor. -/
theorem clipped_variance_amended_witness :
    zeroVarianceCount [[0, 0], [1, 0]] demoGeomMasked.maps.nRegions
      < demoGeomMasked.maps.nRegions :=
  clipped_variance_amended demoExtMaskedFitted demoGeomMasked rfl
    trivialCollab ampImg [[0, 0], [1, 0]]
    (by
      simp only [Extractor.transform, demoExtMaskedFitted, withFitted,
        demoExtMasked]
      rw [transformImage_ok trivialCollab demoGeomMasked Option.none ampImg
        ⟨rfl, rfl⟩]
      norm_num [ampImg, demoGeomMasked, demoMaps, demoMask, regionSignalAt,
        sumOver, maskAllows, smoothedFrame, trivialCollab, List.range_succ])
    ⟨1, 0, 0, 1, by decide, by decide, by decide, by decide,
      by norm_num [demoGeomMasked, demoMaps], rfl⟩
    ⟨0, 0, 0, 0, by decide, by decide, by decide, by decide,
      by norm_num [demoGeomMasked, demoMaps], rfl⟩
    ⟨0, 0, 0, 0, 1, by decide, by decide, by decide, by decide,
      by decide, by norm_num [ampImg]⟩
    0 (by decide)
    (by norm_num [listVariance, listMean, column])
